import Mathlib

/- Verification of the Gemini realtime demo pipeline: the desktop loop
(main1.py, class AudioLoop) and the server-mediated relay (backend.py,
websocket_endpoint).  Python strings are modelled as lists of characters,
byte strings as lists of naturals. -/

namespace GeminiDemo

/-- Python strings, modelled as lists of characters. -/
abbrev PyStr := List Char

/-- Raw byte strings (PCM audio and similar), modelled as lists of naturals. -/
abbrev Bytes := List Nat

/-- Python str.strip(): remove leading and trailing whitespace. -/
def pyStrip (s : PyStr) : PyStr :=
  ((s.dropWhile Char.isWhitespace).reverse.dropWhile Char.isWhitespace).reverse

/-- Python str.lower(): lowercase every character. -/
def pyLower (s : PyStr) : PyStr :=
  s.map Char.toLower

/-- Python str.startswith(p). -/
def pyStartsWith (s p : PyStr) : Bool :=
  p.isPrefixOf s

/-- An outbound media message dict as built by the producers: an audio/pcm
dict (listen_audio in main1.py, the binary branch of from_client in
backend.py) or an image dict with base64 data (camera/screen producers). -/
inductive MediaMsg
  | audioPcm (data : Bytes)
  | image (mimeType : String) (dataB64 : String)
  deriving DecidableEq

/-- One call to the remote session's send: either a plain string payload
(session.send(text, end_of_turn=...)) or a media dict payload.  A call that
passes no end_of_turn argument uses the API default, False. -/
inductive SendEvent
  | sendStr (payload : PyStr) (endOfTurn : Bool)
  | sendMedia (msg : MediaMsg) (endOfTurn : Bool)
  deriving DecidableEq

/-- The characters of the wire tag preceding a client text payload. -/
def textTag : PyStr := ['T', 'E', 'X', 'T', ':']

/-- The characters of the wire tag preceding a client acknowledgement. -/
def ackTag : PyStr := ['A', 'C', 'K', ':']

/-- backend.py from_client, text-frame branch (lines 63-73): a message
starting with TEXT: has the tag removed, the rest stripped, and is sent with
end_of_turn=True; an ACK: message and any other message are only logged and
produce no send. -/
def from_client_text (text_msg : PyStr) : List SendEvent :=
  if pyStartsWith text_msg textTag then
    [SendEvent.sendStr (pyStrip (text_msg.drop 5)) true]
  else if pyStartsWith text_msg ackTag then
    []
  else
    []

/-- backend.py from_client, binary-frame branch (lines 74-82): a zero-length
byte payload is skipped with continue; otherwise the same bytes are sent as
one audio/pcm dict with end_of_turn=True. -/
def from_client_bytes (audio_bytes : Bytes) : List SendEvent :=
  if audio_bytes.length = 0 then
    []
  else
    [SendEvent.sendMedia (MediaMsg.audioPcm audio_bytes) true]

/-- main1.py listen_audio inner loop (lines 246-248): every chunk returned by
audio_stream.read is wrapped as an audio/pcm dict and enqueued on out_queue,
with no check on its length. -/
def listen_audio_read_step (data : Bytes) : List MediaMsg :=
  [MediaMsg.audioPcm data]

/-- Result of one iteration of send_text: the sends issued, the updated
user_message_count, and whether the loop breaks (user quit). -/
structure TextStepResult where
  sends : List SendEvent
  userMessageCount : Nat
  quit : Bool
  deriving DecidableEq

/-- main1.py send_text, one loop iteration (lines 155-165): a line whose
lowercase form is q breaks the loop with no send; otherwise
user_message_count is incremented exactly when the stripped line is
non-empty, and session.send(text or a dot placeholder, end_of_turn=True) is
called once. -/
def send_text_step (text : PyStr) (count : Nat) : TextStepResult :=
  if pyLower text = ['q'] then
    ⟨[], count, true⟩
  else
    let count' := if pyStrip text = [] then count else count + 1
    let payload := if text = [] then ['.'] else text
    ⟨[SendEvent.sendStr payload true], count', false⟩

/-- Device info returned by pya.get_default_input_device_info(). -/
structure MicInfo where
  index : Nat
  deriving DecidableEq

/-- A Python runtime error relevant to the embedded paths. -/
inductive PyError
  | typeError
  deriving DecidableEq

/-- main1.py check_audio_input (lines 350-360): returns (True, info) when a
default input device exists, and (False, None) after printing a warning when
pya.get_default_input_device_info() raises. -/
def check_audio_input (defaultInput : Option MicInfo) : Bool × Option MicInfo :=
  match defaultInput with
  | some info => (true, some info)
  | none => (false, none)

/-- main1.py listen_audio setup (lines 227-240): the mic_available flag is
tested but the branch body is pass, then pya.open is called with
input_device_index=mic_info["index"].  When mic_info is None, subscripting
None raises TypeError; otherwise the stream opens on the device index. -/
def listen_audio_setup (defaultInput : Option MicInfo) : Except PyError Nat :=
  let r := check_audio_input defaultInput
  match r.2 with
  | none => Except.error PyError.typeError
  | some info => Except.ok info.index

/-- In main1.py run (lines 303-347) the component tasks live in one
asyncio.TaskGroup, so an exception escaping any task (such as listen_audio's
setup) cancels the siblings and ends the session with an ExceptionGroup.
True exactly when the session is torn down because listen_audio raised. -/
def session_aborted_by_mic_setup (defaultInput : Option MicInfo) : Bool :=
  match listen_audio_setup defaultInput with
  | Except.error _ => true
  | Except.ok _ => false

/-- Device handles a camera-mode session opens: the microphone input stream
(listen_audio), the speaker output stream (play_audio), the camera capture
handle (get_frames). -/
inductive Device
  | micStream
  | speakerStream
  | cameraCap
  deriving DecidableEq

/-- Exit paths of main1.py run (lines 336-347): the CancelledError path after
a user quit, and the ExceptionGroup path after some task failed. -/
inductive ExitPath
  | userQuit
  | groupFailure
  deriving DecidableEq

/-- Close calls issued at teardown by main1.py run (lines 336-347) for a
camera-mode session whose producer tasks are still live at exit, as a
function of whether listen_audio had opened the mic stream.  On the
ExceptionGroup path the handler closes self.audio_stream and the finally
block closes it again (guarded only by hasattr); on the quit path only the
finally block closes it.  play_audio's output stream (lines 273-288) and
get_frames' capture handle (lines 184-193, released only on camera
end-of-stream) have no close or release call on these paths. -/
def close_events (micOpened : Bool) : ExitPath → List Device
  | ExitPath.userQuit => if micOpened then [Device.micStream] else []
  | ExitPath.groupFailure =>
      if micOpened then [Device.micStream, Device.micStream] else []

/-- PIL Image.thumbnail([1024, 1024]) on a w times h image, modelled from
PIL semantics on dimensions: a no-op when the image already fits in the
bounding box, otherwise an aspect-preserving shrink whose constrained
dimension becomes 1024 and whose other dimension is rounded from the aspect
ratio, floored at 1.  thumbnail never enlarges. -/
def thumbnailDims (w h : Nat) : Nat × Nat :=
  if w ≤ 1024 ∧ h ≤ 1024 then (w, h)
  else if 1024 * w ≤ 1024 * h then
    (max 1 ((1024 * w + h / 2) / h), 1024)
  else
    (1024, max 1 ((1024 * h + w / 2) / w))

/-- Dimensions and encoding of an image dict built for the outbound queue. -/
structure ImageOut where
  width : Nat
  height : Nat
  mimeType : String
  deriving DecidableEq

/-- main1.py AudioLoop._get_frame (lines 167-182) on a successfully captured
camera frame of size w times h: img.thumbnail([1024, 1024]) then a JPEG
re-encode of the resized image. -/
def get_frame_out (w h : Nat) : ImageOut :=
  let d := thumbnailDims w h
  ⟨d.1, d.2, "image/jpeg"⟩

/-- main1.py AudioLoop._get_screen (lines 195-210) on a screen grab of size
w times h: the grab is converted to PNG, reopened, and re-encoded as JPEG,
with no resize call, so the dimensions are unchanged. -/
def get_screen_out (w h : Nat) : ImageOut :=
  ⟨w, h, "image/jpeg"⟩

/-- State of the outbound path in main1.py: the log of every item ever put on
out_queue in arrival order, the current out_queue contents (FIFO, maxsize 5),
and the log of session.send calls issued by send_realtime in order. -/
structure PumpState where
  enqLog : List MediaMsg
  pending : List MediaMsg
  sent : List SendEvent
  deriving DecidableEq

/-- Interleaved atomic steps of the outbound path.  put is any producer's
await out_queue.put(m) completing, which blocks unless fewer than 5 items
are pending; pump is one iteration of send_realtime (lines 221-225): get the
oldest pending item and call session.send(msg), which passes no end_of_turn
argument, so the API default False applies.  send_realtime is the only task
that gets from out_queue, so no other step consumes pending. -/
inductive PumpStep : PumpState → PumpState → Prop
  | put (log pend sent) (m : MediaMsg) (hcap : pend.length < 5) :
      PumpStep ⟨log, pend, sent⟩ ⟨log ++ [m], pend ++ [m], sent⟩
  | pump (log rest sent) (m : MediaMsg) :
      PumpStep ⟨log, m :: rest, sent⟩
        ⟨log, rest, sent ++ [SendEvent.sendMedia m false]⟩

/-- States of the outbound path reachable from a fresh session (empty queue,
nothing enqueued or sent). -/
def PumpReach (s : PumpState) : Prop :=
  Relation.ReflTransGen PumpStep ⟨[], [], []⟩ s

/-- State of the inbound audio path in main1.py: turn counts the completed
turns processed by receive_audio (each ending in the drain loop at lines
270-271); queue is audio_in_queue, each chunk tagged with the value of turn
when it was enqueued; played logs every chunk handed to play_audio, as
(enqueue turn, chunk bytes, value of turn at delivery). -/
structure InboundState where
  turn : Nat
  queue : List (Nat × Bytes)
  played : List (Nat × Bytes × Nat)

/-- Interleaved atomic steps of the inbound audio path.  audio is
receive_audio handling a response with data (line 261, put_nowait);
turnComplete is the drain loop receive_audio runs once the turn's response
stream is exhausted (lines 270-271) — it contains no await, so under
asyncio's cooperative scheduling it empties the queue atomically and no
other step interleaves with it; play is play_audio dequeuing one chunk
(line 286, await audio_in_queue.get), which is the delivery of that chunk
to the playback sink. -/
inductive InboundStep : InboundState → InboundState → Prop
  | audio (t q p) (d : Bytes) :
      InboundStep ⟨t, q, p⟩ ⟨t, q ++ [(t, d)], p⟩
  | turnComplete (t q p) :
      InboundStep ⟨t, q, p⟩ ⟨t + 1, [], p⟩
  | play (t rest p) (c : Nat × Bytes) :
      InboundStep ⟨t, c :: rest, p⟩ ⟨t, rest, p ++ [(c.1, c.2, t)]⟩

/-- States of the inbound audio path reachable from a fresh session (turn
counter 0, empty queue, nothing played). -/
def InboundReach (s : InboundState) : Prop :=
  Relation.ReflTransGen InboundStep ⟨0, [], []⟩ s

/-- Helper: pyStrip of the empty string is empty. -/
theorem pyStrip_nil : pyStrip [] = [] := rfl

/-- C3 counterexample: a zero-length read in the desktop microphone path is
enqueued as an audio/pcm item all the same, so zero-length audio is not
dropped on that path. -/
theorem listen_audio_enqueues_empty_read :
    listen_audio_read_step [] = [MediaMsg.audioPcm []] ∧
      listen_audio_read_step [] ≠ [] := by
  exact ⟨rfl, by decide⟩

/-- C3 (amended): the server binary-frame path drops zero-length audio and
forwards non-empty audio unchanged, while the desktop microphone path
enqueues every read result unconditionally, with no length check. -/
theorem zero_length_audio_paths (bs d : Bytes) :
    (bs = [] → from_client_bytes bs = []) ∧
      (bs ≠ [] →
        from_client_bytes bs = [SendEvent.sendMedia (MediaMsg.audioPcm bs) true]) ∧
      listen_audio_read_step d = [MediaMsg.audioPcm d] := by
  refine ⟨?_, ?_, rfl⟩
  · intro h
    subst h
    rfl
  · intro h
    simp [from_client_bytes, List.length_eq_zero, h]

/-- Witness for C3 at concrete inputs: the empty frame produces no server
send, and the empty read is still enqueued on the desktop path. -/
theorem zero_length_audio_paths_witness :
    from_client_bytes [] = [] ∧
      listen_audio_read_step [] = [MediaMsg.audioPcm []] := by
  have h := zero_length_audio_paths [] []
  exact ⟨h.1 rfl, h.2.2⟩

/-- C4: with no default input device, check_audio_input returns (False, None),
listen_audio ignores the flag and subscripts None for the device index,
raising TypeError, and the TaskGroup in run therefore tears the whole
session down: the microphone source does not degrade to a no-op. -/
theorem no_mic_aborts_session :
    listen_audio_setup none = Except.error PyError.typeError ∧
      session_aborted_by_mic_setup none = true :=
  ⟨rfl, rfl⟩

/-- C5 counterexample: with the microphone stream open, teardown on the
grouped-failure path closes the mic stream twice, and teardown on the quit
path never closes the speaker stream, so handles are not closed exactly
once. -/
theorem close_events_counterexample :
    (close_events true ExitPath.groupFailure).count Device.micStream = 2 ∧
      (close_events true ExitPath.userQuit).count Device.speakerStream = 0 := by
  decide

/-- C5 (amended): on every exit path teardown closes only the microphone
stream — once on the quit path and twice on the grouped-failure path —
while the speaker output stream and the camera capture handle are never
closed or released at session exit. -/
theorem close_events_amended (p : ExitPath) :
    (close_events true p).count Device.micStream =
        (if p = ExitPath.userQuit then 1 else 2) ∧
      (close_events true p).count Device.speakerStream = 0 ∧
      (close_events true p).count Device.cameraCap = 0 := by
  cases p <;> decide

/-- C6: a non-empty client binary frame produces exactly one audio send with
byte-identical payload and endOfTurn true; an empty binary frame produces no
send at all. -/
theorem from_client_bytes_roundtrip (bs : Bytes) :
    (bs ≠ [] →
      from_client_bytes bs = [SendEvent.sendMedia (MediaMsg.audioPcm bs) true]) ∧
      (bs = [] → from_client_bytes bs = []) := by
  constructor
  · intro h
    simp [from_client_bytes, List.length_eq_zero, h]
  · intro h
    subst h
    rfl

/-- Witness for C6 at concrete frames: three bytes are forwarded unchanged
with endOfTurn true, and the empty frame is dropped. -/
theorem from_client_bytes_roundtrip_witness :
    from_client_bytes [1, 2, 3] =
        [SendEvent.sendMedia (MediaMsg.audioPcm [1, 2, 3]) true] ∧
      from_client_bytes [] = [] :=
  ⟨(from_client_bytes_roundtrip [1, 2, 3]).1 (by decide),
    (from_client_bytes_roundtrip []).2 rfl⟩

/-- C7 counterexample: the line made of one space is a non-empty line and
produces one turn-ending send with itself as payload, yet user_message_count
stays 0 rather than rising to 1, because only lines with non-whitespace
content are counted. -/
theorem send_text_blank_line_count :
    ([' '] : PyStr) ≠ [] ∧
      (send_text_step [' '] 0).sends = [SendEvent.sendStr [' '] true] ∧
      (send_text_step [' '] 0).userMessageCount ≠ 0 + 1 := by
  decide

/-- C7 (amended): every line that is not the quit sentinel and whose
stripped form is non-empty produces exactly one turn-ending send with the
line itself as payload and increments user_message_count by exactly one. -/
theorem send_text_nonblank (text : PyStr) (count : Nat)
    (hq : pyLower text ≠ ['q']) (hs : pyStrip text ≠ []) :
    send_text_step text count =
      ⟨[SendEvent.sendStr text true], count + 1, false⟩ := by
  have htext : text ≠ [] := by
    intro h
    subst h
    exact hs pyStrip_nil
  simp [send_text_step, hq, hs, htext]

/-- Witness for C7 at the line hello with count 0: one turn-ending send of
hello and the count becomes 1. -/
theorem send_text_nonblank_witness :
    send_text_step ['h', 'e', 'l', 'l', 'o'] 0 =
      ⟨[SendEvent.sendStr ['h', 'e', 'l', 'l', 'o'] true], 1, false⟩ :=
  send_text_nonblank ['h', 'e', 'l', 'l', 'o'] 0 (by decide) (by decide)

/-- C8: an empty operator line still produces one turn-ending send carrying
the single placeholder dot, and user_message_count is unchanged. -/
theorem send_text_empty_line (count : Nat) :
    send_text_step [] count =
      ⟨[SendEvent.sendStr ['.'] true], count, false⟩ := rfl

/-- Helper: thumbnail into a 1024 by 1024 box yields dimensions of at most
1024 each. -/
theorem thumbnailDims_le (w h : Nat) :
    (thumbnailDims w h).1 ≤ 1024 ∧ (thumbnailDims w h).2 ≤ 1024 := by
  unfold thumbnailDims
  split
  next hfit => exact ⟨hfit.1, hfit.2⟩
  next hbig =>
    split
    next hle =>
      have h0 : 0 < h := by omega
      have key : 1024 * w + h / 2 < 1025 * h := by omega
      have hdiv : (1024 * w + h / 2) / h < 1025 :=
        (Nat.div_lt_iff_lt_mul h0).mpr key
      exact ⟨Nat.max_le.mpr ⟨by norm_num, by omega⟩, le_refl 1024⟩
    next hgt =>
      have h0 : 0 < w := by omega
      have key : 1024 * h + w / 2 < 1025 * w := by omega
      have hdiv : (1024 * h + w / 2) / w < 1025 :=
        (Nat.div_lt_iff_lt_mul h0).mpr key
      exact ⟨le_refl 1024, Nat.max_le.mpr ⟨by norm_num, by omega⟩⟩

/-- C9 counterexample: a 2048 by 1536 screen grab is enqueued at its
original dimensions, exceeding the claimed 1024 bound, because _get_screen
re-encodes without resizing. -/
theorem get_screen_oversize :
    get_screen_out 2048 1536 = ⟨2048, 1536, "image/jpeg"⟩ ∧
      ¬(get_screen_out 2048 1536).width ≤ 1024 :=
  ⟨rfl, by decide⟩

/-- C9 (amended): camera frames are thumbnailed to at most 1024 by 1024 and
re-encoded as JPEG before enqueueing, while screen grabs are re-encoded as
JPEG at their original, unbounded dimensions. -/
theorem frame_bounded_screen_unbounded (w h : Nat) :
    (get_frame_out w h).width ≤ 1024 ∧ (get_frame_out w h).height ≤ 1024 ∧
      (get_frame_out w h).mimeType = "image/jpeg" ∧
      get_screen_out w h = ⟨w, h, "image/jpeg"⟩ := by
  obtain ⟨h1, h2⟩ := thumbnailDims_le w h
  exact ⟨h1, h2, rfl, rfl⟩

/-- C10: a client text frame made of the TEXT tag followed by s is forwarded
as exactly one send whose payload is s stripped of leading and trailing
whitespace, with endOfTurn true — one send is produced even when the
stripped payload is the empty string. -/
theorem from_client_text_strips (s : PyStr) :
    from_client_text (textTag ++ s) = [SendEvent.sendStr (pyStrip s) true] := by
  have hpre : pyStartsWith (textTag ++ s) textTag = true := by
    simp [pyStartsWith, textTag, List.isPrefixOf]
  have hdrop : (textTag ++ s).drop 5 = s := rfl
  simp [from_client_text, hpre, hdrop]

/-- C2: send_realtime alone consumes out_queue, and in every reachable state
the sends issued so far are exactly an initial segment of the arrival order —
one session.send per dequeued item, carrying that item's payload with its
(defaulted False) end-of-turn flag, with no reordering, duplication, or
batching — while the remaining arrivals are still pending in order. -/
theorem send_realtime_fifo (s : PumpState) (h : PumpReach s) :
    ∃ done, s.enqLog = done ++ s.pending ∧
      s.sent = done.map fun m => SendEvent.sendMedia m false := by
  induction h with
  | refl => exact ⟨[], rfl, rfl⟩
  | tail hseg hstep ih =>
    obtain ⟨done, h1, h2⟩ := ih
    cases hstep with
    | put log pend sent m hcap =>
      refine ⟨done, ?_, h2⟩
      simp only [PumpState.enqLog, PumpState.pending] at h1 ⊢
      rw [h1, List.append_assoc]
    | pump log rest sent m =>
      refine ⟨done ++ [m], ?_, ?_⟩
      · simp only [PumpState.enqLog, PumpState.pending] at h1 ⊢
        rw [h1, List.append_assoc]
        rfl
      · simp only [PumpState.sent] at h2 ⊢
        rw [h2, List.map_append]
        rfl

/-- Witness for C2 at a concrete trace: two audio chunks are enqueued and one
pump iteration runs, so the lone send is the first arrival and the second is
still pending. -/
theorem send_realtime_fifo_witness :
    ∃ done,
      [MediaMsg.audioPcm [7], MediaMsg.audioPcm [8]] =
          done ++ [MediaMsg.audioPcm [8]] ∧
        [SendEvent.sendMedia (MediaMsg.audioPcm [7]) false] =
          done.map fun m => SendEvent.sendMedia m false :=
  send_realtime_fifo
    ⟨[MediaMsg.audioPcm [7], MediaMsg.audioPcm [8]], [MediaMsg.audioPcm [8]],
      [SendEvent.sendMedia (MediaMsg.audioPcm [7]) false]⟩
    (Relation.ReflTransGen.tail
      (Relation.ReflTransGen.tail
        (Relation.ReflTransGen.tail Relation.ReflTransGen.refl
          (PumpStep.put [] [] [] (MediaMsg.audioPcm [7]) (by decide)))
        (PumpStep.put [MediaMsg.audioPcm [7]] [MediaMsg.audioPcm [7]] []
          (MediaMsg.audioPcm [8]) (by decide)))
      (PumpStep.pump [MediaMsg.audioPcm [7], MediaMsg.audioPcm [8]]
        [MediaMsg.audioPcm [8]] [] (MediaMsg.audioPcm [7])))

/-- C1: in every reachable state of the inbound audio path, every chunk still
in audio_in_queue was enqueued during the current turn — the atomic drain at
each turn boundary discarded everything enqueued for completed turns — and
every chunk ever delivered to the playback sink was delivered while the turn
that enqueued it was still current, never after that turn's completion had
been processed. -/
theorem inbound_no_stale_playback (s : InboundState) (h : InboundReach s) :
    (∀ c ∈ s.queue, c.1 = s.turn) ∧ ∀ e ∈ s.played, e.1 = e.2.2 := by
  induction h with
  | refl => exact ⟨by simp, by simp⟩
  | tail hseg hstep ih =>
    obtain ⟨hq, hp⟩ := ih
    cases hstep with
    | audio t q p d =>
      refine ⟨?_, hp⟩
      intro c hc
      rcases List.mem_append.mp hc with h1 | h2
      · exact hq c h1
      · rw [List.mem_singleton.mp h2]
    | turnComplete t q p =>
      exact ⟨by simp, hp⟩
    | play t rest p c =>
      refine ⟨fun x hx => hq x (List.mem_cons_of_mem _ hx), ?_⟩
      intro e he
      rcases List.mem_append.mp he with h1 | h2
      · exact hp e h1
      · rw [List.mem_singleton.mp h2]
        exact hq c (List.mem_cons_self _ _)

/-- Witness for C1 at a concrete trace: a chunk enqueued in turn 0 is drained
at the turn boundary; a chunk enqueued in turn 1 is delivered during turn 1,
so the played log pairs its enqueue turn with its delivery turn. -/
theorem inbound_no_stale_playback_witness :
    (∀ c ∈ ([] : List (Nat × Bytes)), c.1 = 1) ∧
      ∀ e ∈ [((1 : Nat), ([5] : Bytes), (1 : Nat))], e.1 = e.2.2 :=
  inbound_no_stale_playback ⟨1, [], [(1, [5], 1)]⟩
    (Relation.ReflTransGen.tail
      (Relation.ReflTransGen.tail
        (Relation.ReflTransGen.tail
          (Relation.ReflTransGen.tail Relation.ReflTransGen.refl
            (InboundStep.audio 0 [] [] [3]))
          (InboundStep.turnComplete 0 [(0, [3])] []))
        (InboundStep.audio 1 [] [] [5]))
      (InboundStep.play 1 [] [] (1, [5])))

end GeminiDemo
